import Mathlib

/-!
Verification development for `go-clean-architecture`

A shallow embedding of the account service:

* `app/internal/service/user_service.go` : `userService.Signup`, `userService.Signin`;
* `app/helper/logrus.go` : `StringLog`, `CreateLog`, `LogE2E`;
* `app/cmd/main.go` : `initDS`, `inject`, `main`;
* the Token Service and Token Repository, whose sources are not part of the
  files at hand and which are modelled from the specification.

Go pointers that the code dereferences are `Option` values, Go's
`(value, error)` results are records or pairs with an `Option GoError`, and
effects (the caller's `*u`, the log output, calls made on collaborators) are
returned explicitly.
-/

set_option autoImplicit false

/-! ## Errors -/

namespace apperrors

/-- Modelled from the spec: package `apperrors` is not among the sources; the
error kinds are those of section 7 (Internal, Authorization, BadRequest). -/
inductive Kind where
  | Authorization
  | BadRequest
  | Internal
  deriving DecidableEq, Repr

/-- Modelled from the spec: the custom error value of package `apperrors`
(not among the sources): a kind (the Go field is named Type, a reserved word
here) and a message. -/
structure Error where
  Kind : apperrors.Kind
  Message : String
  deriving DecidableEq, Repr

/-- Modelled from the spec: `apperrors.NewAuthorization(reason)`, absent from
the sources: an Authorization-kind error carrying the reason it is given. -/
def NewAuthorization (reason : String) : Error :=
  { Kind := .Authorization, Message := reason }

/-- Modelled from the spec: `apperrors.NewInternal()`, absent from the
sources: an Internal-kind error.  Its message text is not given anywhere in
the sources or the spec; nothing below depends on it. -/
def NewInternal : Error :=
  { Kind := .Internal, Message := "Internal server error." }

/-- Modelled from the spec: `apperrors.NewBadRequest(reason)`, absent from the
sources: a BadRequest-kind error carrying the reason. -/
def NewBadRequest (reason : String) : Error :=
  { Kind := .BadRequest, Message := reason }

end apperrors

/-- A Go `error` value: an application error, an error of a library
(`errors.New`, a driver, `strconv`, ...) or an error wrapped by
`fmt.Errorf("...: %w", err)`. -/
inductive GoError where
  | app (e : apperrors.Error)
  | lib (msg : String)
  | wrap (msg : String) (inner : GoError)
  deriving DecidableEq, Repr

namespace GoError

/-- The `Error()` method: the text of the error. -/
def Error : GoError → String
  | app e => e.Message
  | lib m => m
  | wrap m inner => m ++ inner.Error

/-- The kind of an error, when it is (directly) an application error. -/
def kind : GoError → Option apperrors.Kind
  | app e => some e.Kind
  | _ => none

end GoError

/-- What a Go function call does: return a value, or panic. -/
inductive Outcome (α : Type) where
  | returned (v : α)
  | panicked
  deriving DecidableEq, Repr

/-- The kind of the application error a call returned, if it returned one. -/
def Outcome.errKind : Outcome (Option GoError) → Option apperrors.Kind
  | .returned (some e) => e.kind
  | _ => none

/-! ## The user model and the collaborators of the user service -/

/-- Modelled from the spec: `model.User` is declared outside the sources at
hand; its fields are those of section 3 (unique id, email, password hash,
display/image attributes), among them the ones the service code reads
(`Email`, `Password`, `ImageURL`). -/
structure User where
  UID : Nat
  Email : String
  Password : String
  Name : String
  ImageURL : String
  deriving DecidableEq, Repr

/-- A `context.Context`, which the service only passes on. -/
structure Context where
  id : Nat
  deriving DecidableEq, Repr

/-- The Go result `(*model.User, error)` of a repository lookup. -/
structure FindResult where
  user : Option User
  err : Option GoError
  deriving DecidableEq, Repr

/-- The result of a repository call that takes `u *model.User` and returns an
`error`: the value `*u` holds afterwards, and the error. -/
structure MutResult where
  u : User
  err : Option GoError
  deriving DecidableEq, Repr

/-- The `model.UserRepository` interface, whose declaration is outside the
sources: the four methods named in section 6 of the spec, as the service
calls them. -/
structure UserRepository where
  FindByID : Context → Nat → FindResult
  FindByEmail : Context → String → FindResult
  Create : Context → User → MutResult
  Update : Context → User → MutResult

/-- The service's package-level helpers `hashPassword` and `comparePasswords`,
which are called by `user_service.go` and defined outside the sources at
hand; they are parameters of the embedding. -/
structure Passwords where
  hashPassword : String → String × Option GoError
  comparePasswords : String → String → Bool × Option GoError

/-! ## The process environment -/

/-- An opened database handle (`*sqlx.DB`). -/
structure DB where
  conn : String
  deriving DecidableEq, Repr

/-- An RSA public key as parsed by `jwt.ParseRSAPublicKeyFromPEM`. -/
structure RSAPublicKey where
  N : Nat
  E : Nat
  deriving DecidableEq, Repr

/-- An RSA private key as parsed by `jwt.ParseRSAPrivateKeyFromPEM`. -/
structure RSAPrivateKey where
  N : Nat
  E : Nat
  D : Nat
  deriving DecidableEq, Repr

/-- The operating system and the libraries, as the program observes them.
`getenv` is `os.Getenv` (the empty string for an unset variable) after the
attempt to load the dotenv file; `openFile n path` tells whether the `n`-th
`os.OpenFile` of the log file succeeds. -/
structure World where
  getenv : String → String
  openFile : Nat → String → Bool
  dotenvLoad : String → Option GoError
  sqlOpen : String → String → Except GoError DB
  dbPing : DB → Option GoError
  redisPing : String → Option GoError
  readFile : String → Except GoError (List Nat)
  parseRSAPrivateKey : List Nat → Except GoError RSAPrivateKey
  parseRSAPublicKey : List Nat → Except GoError RSAPublicKey
  parseInt : String → Except GoError Int

/-- The world with one environment variable set to a value. -/
def World.setenv (w : World) (key value : String) : World :=
  { w with getenv := fun k => if k = key then value else w.getenv k }

/-! ## `helper/logrus.go` -/

namespace helper

/-- Where a logrus logger writes (`log.Out`). -/
inductive Writer where
  | stdout
  | stderr
  | file (path : String)
  deriving DecidableEq, Repr

/-- A value of a structured log field. -/
inductive FieldValue where
  | str (s : String)
  | int (i : Int)
  | duration (d : Int)
  | error (e : GoError)
  deriving DecidableEq, Repr

/-- One entry written by a logrus logger. -/
structure Entry where
  out : Writer
  level : String
  message : String
  fields : List (String × FieldValue)
  deriving DecidableEq, Repr

/-- The struct `Log`. -/
structure Log where
  Event : String
  ResponseTime : Int
  Response : FieldValue
  Key : String
  deriving DecidableEq, Repr

/-- The struct `Loge2e`. -/
structure Loge2e where
  Event : String
  StatusCode : Int
  ResponseTime : Int
  Method : String
  Request : FieldValue
  URL : String
  Message : String
  Tag : String
  Key : String
  deriving DecidableEq, Repr

/-- The logging state of the process: `out` is the `Out` of the package
variable `log`, `opened` counts the `os.OpenFile` calls made so far,
`entries` are the logrus entries written so far (oldest first) and `std` the
lines printed through the standard `log` package. -/
structure LogState where
  out : Writer
  opened : Nat
  entries : List Entry
  std : List String
  deriving DecidableEq, Repr

/-- The state at process start: `logrus.New()` writes to standard error. -/
def LogState.initial : LogState :=
  { out := .stderr, opened := 0, entries := [], std := [] }

/-- Append an entry written to `out`. -/
def LogState.write (lg : LogState) (out : Writer) (level message : String)
    (fields : List (String × FieldValue)) : LogState :=
  { lg with entries := lg.entries ++ [{ out := out, level := level, message := message, fields := fields }] }

/-- The directory of the log file, as every function of the file computes it
(`"../logs"`, or `DIR_LOGS` in production and preproduction). -/
def logDir (w : World) : String :=
  if w.getenv "ENV" = "production" ∨ w.getenv "ENV" = "preproduction" then w.getenv "DIR_LOGS"
  else "../logs"

/-- The function `StringLog(level, message)`. -/
def StringLog (w : World) (lg : LogState) (level message : String) : LogState :=
  let lg := { lg with out := Writer.stdout }
  let path := logDir w ++ "/mylog.log"
  let ok := w.openFile lg.opened path
  let lg := { lg with opened := lg.opened + 1 }
  let lg :=
    if ok then { lg with out := Writer.file path }
    else lg.write lg.out "info" "Failed to log to file, using default stderr (string log)" []
  if level = "info" then lg.write lg.out "info" message []
  else if level = "warn" then lg.write lg.out "warning" message []
  else if level = "error" then lg.write lg.out "error" message []
  else lg

/-- The function `CreateLog(data)`, which logs through a logger of its own;
it always returns `nil`. -/
def CreateLog (w : World) (lg : LogState) (data : Log) : LogState :=
  let path := logDir w ++ "/mylog.log"
  let ok := w.openFile lg.opened path
  let lg := { lg with opened := lg.opened + 1 }
  let localOut := if ok then Writer.file path else Writer.stderr
  let lg :=
    if ok then lg
    else lg.write Writer.stderr "info" "Failed to log to file, using default stderr" []
  lg.write localOut "info" "LOG"
    [ ("event", .str data.Event),
      ("response_time", .duration data.ResponseTime),
      ("response", data.Response),
      ("key", .str data.Key) ]

/-- The function `LogE2E(data, types, order)`; it always returns `nil`. -/
def LogE2E (w : World) (lg : LogState) (data : Loge2e) (types order : String) : LogState :=
  let path := logDir w ++ "/mylog.log"
  let ok := w.openFile lg.opened path
  let lg := { lg with opened := lg.opened + 1 }
  let lg :=
    if ok then { lg with out := Writer.file path }
    else lg.write lg.out "info" "Failed to log to file, using default stderr" []
  let lg :=
    if types = "info" then
      lg.write lg.out "info" data.Message
        [ ("event", .str data.Event),
          ("tag", .str order),
          ("status_code", .int data.StatusCode),
          ("response_time", .duration data.ResponseTime),
          ("method", .str data.Method),
          ("request", data.Request),
          ("url_payload", .str data.URL),
          ("key", .str data.Key) ]
    else lg
  { lg with out := Writer.stdout }

end helper

/-! ## `internal/service/user_service.go` -/

/-- The struct `userService`. -/
structure userService where
  UserRepository : UserRepository

/-- The struct `USConfig`. -/
structure USConfig where
  UserRepository : UserRepository

/-- The factory `NewUserService`. -/
def NewUserService (c : USConfig) : userService :=
  { UserRepository := c.UserRepository }

/-- The readings of the clock during one `Signin`: `time.Since(start)` in the
lookup-failure branch and `time.Since(time.Now())` in the success branch. -/
structure SigninClock where
  sinceStart : Int
  sinceNow : Int
  deriving DecidableEq, Repr

/-- What a call of a service method taking `u *model.User` leaves behind: its
result, the caller's `*u`, the users passed to `UserRepository.Create`
(in call order) and the log. -/
structure CallResult where
  ret : Outcome (Option GoError)
  u : User
  created : List User
  log : helper.LogState

namespace userService

/-- The method `Get`. -/
def Get (s : userService) (ctx : Context) (uid : Nat) : FindResult :=
  s.UserRepository.FindByID ctx uid

/-- The method `Signup`. -/
def Signup (s : userService) (pw : Passwords) (lg : helper.LogState)
    (ctx : Context) (u : User) : CallResult :=
  match pw.hashPassword u.Password with
  | (_, some _) =>
    { ret := .returned (some (.app apperrors.NewInternal)), u := u, created := [],
      log := { lg with std := lg.std ++ ["Unable to signup user for email: " ++ u.Email ++ "\n"] } }
  | (hash, none) =>
    let u1 := { u with Password := hash }
    let r := s.UserRepository.Create ctx u1
    match r.err with
    | some err => { ret := .returned (some err), u := r.u, created := [u1], log := lg }
    | none => { ret := .returned none, u := r.u, created := [u1], log := lg }

/-- The method `Signin`. -/
def Signin (s : userService) (pw : Passwords) (w : World) (clk : SigninClock)
    (lg : helper.LogState) (ctx : Context) (u : User) : CallResult :=
  let found := s.UserRepository.FindByEmail ctx u.Email
  match found.err with
  | some err =>
    let lg := helper.CreateLog w lg
      { Event := "POST-SIGNIN", ResponseTime := clk.sinceStart, Response := .error err, Key := u.Email }
    { ret := .returned (some (.app (apperrors.NewAuthorization "Invalid email and password combination"))),
      u := u, created := [], log := lg }
  | none =>
    match found.user with
    | none => { ret := .panicked, u := u, created := [], log := lg }
    | some uFetched =>
      match pw.comparePasswords uFetched.Password u.Password with
      | (_, some _) =>
        { ret := .returned (some (.app apperrors.NewInternal)), u := u, created := [], log := lg }
      | (false, none) =>
        let lg := helper.StringLog w lg "error"
          ("Invalid email : " ++ u.Email ++ " and password : " ++ u.Password ++ " combination")
        { ret := .returned (some (.app (apperrors.NewAuthorization "Invalid email and password combination"))),
          u := u, created := [], log := lg }
      | (true, none) =>
        let lg := helper.LogE2E w lg
          { Event := "e2eSigninInvoice", StatusCode := 200, ResponseTime := clk.sinceNow,
            Method := "POST", Request := .str "signin-service", URL := uFetched.ImageURL,
            Message := "message from log e2e", Tag := "", Key := uFetched.Email }
          "info" "business-telco"
        let lg := helper.StringLog w lg "info" ("Success create invoice orderId " ++ uFetched.Email)
        { ret := .returned none, u := uFetched, created := [], log := lg }

/-- The method `UpdateDetails`. -/
def UpdateDetails (s : userService) (lg : helper.LogState) (ctx : Context) (u : User) :
    CallResult :=
  let r := s.UserRepository.Update ctx u
  { ret := .returned r.err, u := r.u, created := [], log := lg }

end userService

/-! ## Sign-in and sign-up -/

/-- The message of both Authorization errors of `Signin`. -/
def invalidCombination : String := "Invalid email and password combination"

/-- A repository whose every method answers with the same lookup result. -/
def constRepository (r : FindResult) (blank : User) : UserRepository :=
  { FindByID := fun _ _ => r,
    FindByEmail := fun _ _ => r,
    Create := fun _ u => { u := { u with UID := blank.UID + 1 }, err := none },
    Update := fun _ u => { u := u, err := none } }

/-- Password helpers that "hash" by prefixing a marker and compare accordingly. -/
def plainPasswords : Passwords :=
  { hashPassword := fun p => ("hashed:" ++ p, none),
    comparePasswords := fun stored supplied => (decide (stored = "hashed:" ++ supplied), none) }

/-- Password helpers that always fail. -/
def brokenPasswords : Passwords :=
  { hashPassword := fun _ => ("", some (.lib "scrypt: out of memory")),
    comparePasswords := fun _ _ => (false, some (.lib "encoded hash is malformed")) }

/-- A world in which nothing is configured and no file can be opened. -/
def bareWorld : World :=
  { getenv := fun _ => "",
    openFile := fun _ _ => false,
    dotenvLoad := fun _ => none,
    sqlOpen := fun _ conn => .ok { conn := conn },
    dbPing := fun _ => none,
    redisPing := fun _ => none,
    readFile := fun _ => .error (.lib "open : no such file or directory"),
    parseRSAPrivateKey := fun _ => .error (.lib "Invalid Key: Key must be a PEM encoded PKCS1 or PKCS8 key"),
    parseRSAPublicKey := fun _ => .error (.lib "Invalid Key: Key must be a PEM encoded PKCS1 or PKCS8 key"),
    parseInt := fun _ => .error (.lib "invalid syntax") }

/-- A stored user. -/
def alice : User :=
  { UID := 42, Email := "alice@example.com", Password := "hashed:s3cret", Name := "Alice",
    ImageURL := "https://img.example.com/alice.png" }

/-- A sign-in request for the stored user with the right password. -/
def aliceLogin : User :=
  { UID := 0, Email := "alice@example.com", Password := "s3cret", Name := "", ImageURL := "" }

/-- A sign-in request for the stored user with a wrong password. -/
def aliceWrong : User :=
  { UID := 0, Email := "alice@example.com", Password := "guess", Name := "", ImageURL := "" }

/-- The clock readings used in the examples. -/
def someClock : SigninClock := { sinceStart := 1500, sinceNow := 0 }

/-- The context used in the examples. -/
def someCtx : Context := { id := 7 }

/-- The user service over the repository that finds the stored user. -/
def aliceService : userService :=
  NewUserService { UserRepository := constRepository { user := some alice, err := none } alice }

/-- The user service over a repository whose lookups fail with the given error. -/
def failingService (e : GoError) : userService :=
  NewUserService { UserRepository := constRepository { user := none, err := some e } alice }

/-! ## `cmd/main.go` -/

/-- A `*redis.Client`, by the options it was created with. -/
structure RedisClient where
  Addr : String
  Password : String
  DB : Nat
  deriving DecidableEq, Repr

/-- The struct `dataSources`. -/
structure dataSources where
  DB : DB
  RedisClient : RedisClient
  deriving DecidableEq, Repr

/-- The value `repository.NewUserRepository(db)` builds (its source is not at
hand): a repository over the database handle. -/
structure pgUserRepository where
  DB : DB
  deriving DecidableEq, Repr

/-- The value `repository.NewTokenRepository(rdb)` builds (its source is not
at hand): a repository over the redis client. -/
structure redisTokenRepository where
  Redis : RedisClient
  deriving DecidableEq, Repr

/-- The struct `service.TSConfig`, with the fields `inject` fills. -/
structure TSConfig where
  TokenRepository : redisTokenRepository
  PrivKey : RSAPrivateKey
  PubKey : RSAPublicKey
  RefreshSecret : String
  IDExpirationSecs : Int
  RefreshExpirationSecs : Int
  deriving DecidableEq, Repr

/-- The struct `handler.Config` without its router field `R`; the two services
are named by what they were constructed from. -/
structure handlerConfig where
  UserService : pgUserRepository
  TokenService : TSConfig
  BaseURL : String
  TimeoutDuration : Int
  deriving DecidableEq, Repr

/-- A `*gin.Engine` on which `handler.NewHandler` registered the routes of the
given configuration. -/
structure Engine where
  handler : handlerConfig
  deriving DecidableEq, Repr

/-- Arithmetic of Go's `int64`: the value wraps around modulo `2^64`. -/
def wrapInt64 (x : Int) : Int :=
  (x + 2 ^ 63) % 2 ^ 64 - 2 ^ 63

/-- One second as a `time.Duration` (nanoseconds). -/
def timeSecond : Int := 1000000000

/-- Print a line through the standard `log` package. -/
def helper.LogState.print (lg : helper.LogState) (line : String) : helper.LogState :=
  { lg with std := lg.std ++ [line] }

/-- The function `initDS`. -/
def initDS (w : World) (lg : helper.LogState) : Except GoError dataSources × helper.LogState :=
  let lg := lg.print "Initializing data sources\n"
  let pgHost := w.getenv "PG_HOST"
  let pgPort := w.getenv "PG_PORT"
  let pgUser := w.getenv "PG_USER"
  let pgPassword := w.getenv "PG_PASSWORD"
  let pgDB := w.getenv "PG_DB"
  let pgSSL := w.getenv "PG_SSL"
  let pgConnString := "host=" ++ pgHost ++ " port=" ++ pgPort ++ " user=" ++ pgUser ++
    " password=" ++ pgPassword ++ " dbname=" ++ pgDB ++ " sslmode=" ++ pgSSL
  let lg := lg.print "Connecting to Postgresql\n"
  match w.sqlOpen "postgres" pgConnString with
  | .error err => (.error (.wrap "error opening db: " err), lg)
  | .ok db =>
    match w.dbPing db with
    | some err => (.error (.wrap "error connecting to db: " err), lg)
    | none =>
      let redisHost := w.getenv "REDIS_HOST"
      let redisPort := w.getenv "REDIS_PORT"
      let lg := lg.print "Connecting to Redis\n"
      let rdb : RedisClient := { Addr := redisHost ++ ":" ++ redisPort, Password := "", DB := 0 }
      match w.redisPing rdb.Addr with
      | some err => (.error (.wrap "error connecting to redis: " err), lg)
      | none => (.ok { DB := db, RedisClient := rdb }, lg)

/-- What `inject` does: the router and error it returns, the configurations
it passed to `service.NewTokenService` (in call order), and the log. -/
structure InjectResult where
  router : Option Engine
  err : Option GoError
  tokenServices : List TSConfig
  log : helper.LogState
  deriving DecidableEq, Repr

/-- The function `inject`. -/
def inject (w : World) (lg : helper.LogState) (d : dataSources) : InjectResult :=
  let lg := lg.print "Injecting data sources\n"
  let userRepository : pgUserRepository := { DB := d.DB }
  let tokenRepository : redisTokenRepository := { Redis := d.RedisClient }
  let userService := userRepository
  let privKeyFile := w.getenv "PRIV_KEY_FILE"
  match w.readFile privKeyFile with
  | .error err =>
    { router := none, err := some (.wrap "could not read private key pem file: " err),
      tokenServices := [], log := lg }
  | .ok priv =>
  match w.parseRSAPrivateKey priv with
  | .error err =>
    { router := none, err := some (.wrap "could not parse private key: " err),
      tokenServices := [], log := lg }
  | .ok privKey =>
  let pubKeyFile := w.getenv "PUB_KEY_FILE"
  match w.readFile pubKeyFile with
  | .error err =>
    { router := none, err := some (.wrap "could not read public key pem file: " err),
      tokenServices := [], log := lg }
  | .ok pub =>
  match w.parseRSAPublicKey pub with
  | .error err =>
    { router := none, err := some (.wrap "could not parse public key: " err),
      tokenServices := [], log := lg }
  | .ok pubKey =>
  let refreshSecret := w.getenv "REFRESH_SECRET"
  let idTokenExp := w.getenv "ID_TOKEN_EXP"
  let refreshTokenExp := w.getenv "REFRESH_TOKEN_EXP"
  match w.parseInt idTokenExp with
  | .error err =>
    { router := none, err := some (.wrap "could not parse ID_TOKEN_EXP as int: " err),
      tokenServices := [], log := lg }
  | .ok idExp =>
  match w.parseInt refreshTokenExp with
  | .error err =>
    { router := none, err := some (.wrap "could not parse REFRESH_TOKEN_EXP as int: " err),
      tokenServices := [], log := lg }
  | .ok refreshExp =>
  let tokenService : TSConfig :=
    { TokenRepository := tokenRepository,
      PrivKey := privKey,
      PubKey := pubKey,
      RefreshSecret := refreshSecret,
      IDExpirationSecs := idExp,
      RefreshExpirationSecs := refreshExp }
  let baseURL := w.getenv "ACCOUNT_API_URL"
  let handlerTimeout := w.getenv "HANDLER_TIMEOUT"
  match w.parseInt handlerTimeout with
  | .error err =>
    { router := none, err := some (.wrap "could not parse HANDLER_TIMEOUT as int: " err),
      tokenServices := [tokenService], log := lg }
  | .ok ht =>
    { router := some { handler :=
        { UserService := userService,
          TokenService := tokenService,
          BaseURL := baseURL,
          TimeoutDuration := wrapInt64 (ht * timeSecond) } },
      err := none, tokenServices := [tokenService], log := lg }

/-- How far `main` gets: it panics, it exits through `log.Fatalf`, or it
starts the goroutine that runs `srv.ListenAndServe()` on the address with the
handler. -/
inductive Startup where
  | panicked (err : GoError)
  | fatal (message : String)
  | serve (addr : String) (handler : Option Engine)
  deriving DecidableEq, Repr

/-- What `main` does up to the start of the HTTP server. -/
structure MainResult where
  outcome : Startup
  log : helper.LogState
  deriving DecidableEq, Repr

namespace cmd

/-- The function `main` of package `main`, up to the start of the HTTP server
(the wait for a signal and the shutdown that follow are not part of the
embedding). -/
def main (w : World) (lg : helper.LogState) : MainResult :=
  let lg := lg.print "Starting server...\n"
  let baseDir := ".."
  match w.dotenvLoad (baseDir ++ "/.env.dev") with
  | some err =>
    let lg := helper.StringLog w lg "error" err.Error
    { outcome := .panicked err, log := lg }
  | none =>
  match initDS w lg with
  | (.error err, lg) =>
    let lg := helper.StringLog w lg "error" err.Error
    let line := "Unable to initialize data sources: " ++ err.Error ++ "\n"
    { outcome := .fatal line, log := lg.print line }
  | (.ok ds, lg) =>
  let r := inject w lg ds
  match r.err with
  | some err =>
    let lg := helper.StringLog w r.log "error" err.Error
    let line := "Failure to inject data sources: " ++ err.Error ++ "\n"
    { outcome := .fatal line, log := lg.print line }
  | none =>
    let addr := ":" ++ w.getenv "SERVER_PORT"
    { outcome := .serve addr r.router, log := r.log.print ("Listening on port " ++ addr ++ "\n") }

end cmd

deriving instance DecidableEq for Except

/-- Whether a fallible call failed. -/
def Except.failed {ε α : Type} : Except ε α → Bool
  | .error _ => true
  | .ok _ => false

/-- The bytes of the private key file of the examples. -/
def privPem : List Nat := [45, 45, 80, 82, 73, 86]

/-- The bytes of the public key file of the examples. -/
def pubPem : List Nat := [45, 45, 80, 85, 66]

/-- A deployment in which the key files and both lifetimes are present and
valid and in which `REFRESH_SECRET` is not set. -/
def noSecretWorld : World :=
  { getenv := fun k =>
      if k = "PRIV_KEY_FILE" then "/keys/rsa_private_dev.pem"
      else if k = "PUB_KEY_FILE" then "/keys/rsa_public_dev.pem"
      else if k = "ID_TOKEN_EXP" then "900"
      else if k = "REFRESH_TOKEN_EXP" then "259200"
      else if k = "HANDLER_TIMEOUT" then "5"
      else if k = "SERVER_PORT" then "8080"
      else "",
    openFile := fun _ _ => true,
    dotenvLoad := fun _ => none,
    sqlOpen := fun _ conn => .ok { conn := conn },
    dbPing := fun _ => none,
    redisPing := fun _ => none,
    readFile := fun path =>
      if path = "/keys/rsa_private_dev.pem" then .ok privPem
      else if path = "/keys/rsa_public_dev.pem" then .ok pubPem
      else .error (.lib "no such file or directory"),
    parseRSAPrivateKey := fun b =>
      if b = privPem then .ok { N := 3233, E := 17, D := 2753 }
      else .error (.lib "Invalid Key: Key must be a PEM encoded PKCS1 or PKCS8 key"),
    parseRSAPublicKey := fun b =>
      if b = pubPem then .ok { N := 3233, E := 17 }
      else .error (.lib "Invalid Key: Key must be a PEM encoded PKCS1 or PKCS8 key"),
    parseInt := fun s =>
      if s = "900" then .ok 900
      else if s = "259200" then .ok 259200
      else if s = "5" then .ok 5
      else .error (.lib "invalid syntax") }

/-- The same deployment with `ID_TOKEN_EXP` removed. -/
def noLifetimeWorld : World := noSecretWorld.setenv "ID_TOKEN_EXP" ""

/-- The data sources of the examples. -/
def someSources : dataSources :=
  { DB := { conn := "host=db" }, RedisClient := { Addr := "redis:6379", Password := "", DB := 0 } }

/-! ## The Token Service and the Token Repository

Their sources are not among the files at hand; the definitions of this
section follow sections 3, 4.1, 4.2 and 7 of the specification. -/

/-- Modelled from the spec: one member of a user's live-session collection in
the session store (section 2, Session Store Adapter: per-user set membership
with per-entry expiry); the source of the store adapter is missing. -/
structure Session where
  UID : Nat
  TokenID : Nat
  ExpiresAt : Int
  deriving DecidableEq, Repr

/-- Modelled from the spec: a mutating operation the session store carried
out for the Token Repository (section 4.2: register, delete-one, delete-all);
the source of the store adapter is missing. -/
inductive StoreOp where
  | set (userID tokenID : Nat) (expiresAt : Int)
  | delete (userID tokenID : Nat)
  | deleteAll (userID : Nat)
  deriving DecidableEq, Repr

/-- Modelled from the spec: the session store behind the Token Repository,
whose source is missing: its contents, and the mutating operations it has
carried out, oldest first (section 5 speaks of the order in which they are
sequenced). -/
structure SessionStore where
  sessions : List Session
  journal : List StoreOp
  deriving DecidableEq, Repr

/-- Modelled from the spec: which store operations of one service call fail
(section 4.2: a failing store operation is surfaced as Internal); the store
client is missing from the sources and its failures are an input. -/
structure StoreFaults where
  set : Bool
  delete : Bool
  deleteAll : Bool
  lookup : Bool
  deriving DecidableEq, Repr

/-- No store operation fails. -/
def StoreFaults.healthy : StoreFaults :=
  { set := false, delete := false, deleteAll := false, lookup := false }

namespace tokenRepository

/-- Modelled from the spec: `SetRefreshToken(ctx, userID, tokenID, ttl)` of
the missing Token Repository (section 4.2): adds the identifier to the user's
collection and arms its expiry in one operation; a store failure is Internal. -/
def SetRefreshToken (fails : Bool) (now : Int) (s : SessionStore) (userID tokenID : Nat)
    (ttl : Int) : SessionStore × Option apperrors.Error :=
  if fails then (s, some apperrors.NewInternal)
  else
    ({ sessions := { UID := userID, TokenID := tokenID, ExpiresAt := now + ttl } ::
        s.sessions.filter (fun e => !(e.UID == userID && e.TokenID == tokenID)),
       journal := s.journal ++ [.set userID tokenID (now + ttl)] }, none)

/-- Modelled from the spec: `DeleteRefreshToken(ctx, userID, tokenID)` of the
missing Token Repository (section 4.2): idempotent removal, deleting an
identifier that is not there is not an error; a store failure is Internal. -/
def DeleteRefreshToken (fails : Bool) (s : SessionStore) (userID tokenID : Nat) :
    SessionStore × Option apperrors.Error :=
  if fails then (s, some apperrors.NewInternal)
  else
    ({ sessions := s.sessions.filter (fun e => !(e.UID == userID && e.TokenID == tokenID)),
       journal := s.journal ++ [.delete userID tokenID] }, none)

/-- Modelled from the spec: `DeleteUserRefreshTokens(ctx, userID)` of the
missing Token Repository (section 4.2): removes the whole collection of the
user in one operation; a store failure is Internal. -/
def DeleteUserRefreshTokens (fails : Bool) (s : SessionStore) (userID : Nat) :
    SessionStore × Option apperrors.Error :=
  if fails then (s, some apperrors.NewInternal)
  else
    ({ sessions := s.sessions.filter (fun e => !(e.UID == userID)),
       journal := s.journal ++ [.deleteAll userID] }, none)

/-- Modelled from the spec: `Exists(ctx, userID, tokenID)` of the missing
Token Repository (section 4.2): membership in the user's collection and not
past the stored expiry; a store failure is Internal. -/
def Exists (fails : Bool) (now : Int) (s : SessionStore) (userID tokenID : Nat) :
    Except apperrors.Error Bool :=
  if fails then .error apperrors.NewInternal
  else .ok (s.sessions.any (fun e => e.UID == userID && e.TokenID == tokenID && decide (now ≤ e.ExpiresAt)))

end tokenRepository

/-- Modelled from the spec: `IdentityClaims` (section 3) of the missing Token
Service: subject, issued-at and expiry. -/
structure IdentityClaims where
  Subject : Nat
  IssuedAt : Int
  ExpiresAt : Int
  deriving DecidableEq, Repr

/-- Modelled from the spec: `RefreshToken` (section 3) of the missing Token
Service: an identifier, the owning user id and the expiry instant. -/
structure RefreshToken where
  ID : Nat
  UID : Nat
  ExpiresAt : Int
  deriving DecidableEq, Repr

/-- Modelled from the spec: a refresh-token string as callers hold it
(section 4.1, ValidateRefreshToken): either it cannot be decoded at all, or
it decodes to an identifier, a claimed owner, an expiry and a tamper-evident
tag.  The encoding itself is in the missing Token Service. -/
inductive TokenString where
  | undecodable (raw : String)
  | encoded (payload : RefreshToken) (tag : Nat)
  deriving DecidableEq, Repr

/-- Modelled from the spec: `TokenPair` (section 3) of the missing Token
Service. -/
structure TokenPair where
  identityToken : String
  refreshToken : TokenString
  deriving DecidableEq, Repr

/-- Modelled from the spec: the cryptographic primitives the missing Token
Service applies to its signing material (section 2): signing identity claims
with the private key, which may fail, and the tag computed over a refresh
payload from the symmetric secret. -/
structure Crypto where
  sign : RSAPrivateKey → IdentityClaims → Option String
  mac : String → RefreshToken → Nat

/-- Modelled from the spec: the state the missing Token Service works on: the
session store, and the source of new refresh-token identifiers (section 4.1
(b), "mint a new refresh-token identifier"), here a counter, so that an
identifier is never minted twice. -/
structure ServiceState where
  store : SessionStore
  nextID : Nat
  deriving DecidableEq, Repr

/-- The state before any call: an empty store. -/
def ServiceState.initial : ServiceState :=
  { store := { sessions := [], journal := [] }, nextID := 0 }

namespace tokenService

/-- Modelled from the spec: `NewPairFromUser(ctx, user, previousRefreshTokenID?)`
of the missing Token Service, steps (a) to (e) of section 4.1: sign the
identity claims, mint a new identifier, delete the previous identifier if one
is given, insert the new one with the refresh lifetime, return the pair; a
signing or repository failure is Internal. -/
def NewPairFromUser (c : Crypto) (cfg : TSConfig) (flt : StoreFaults) (now : Int)
    (st : ServiceState) (u : User) (previousRefreshTokenID : Option Nat) :
    ServiceState × Except apperrors.Error TokenPair :=
  let claims : IdentityClaims :=
    { Subject := u.UID, IssuedAt := now, ExpiresAt := now + cfg.IDExpirationSecs }
  match c.sign cfg.PrivKey claims with
  | none => (st, .error apperrors.NewInternal)
  | some idToken =>
    let id := st.nextID
    let st := { st with nextID := st.nextID + 1 }
    let deleted :=
      match previousRefreshTokenID with
      | some prev => tokenRepository.DeleteRefreshToken flt.delete st.store u.UID prev
      | none => (st.store, none)
    match deleted with
    | (_, some err) => (st, .error err)
    | (store, none) =>
      match tokenRepository.SetRefreshToken flt.set now store u.UID id cfg.RefreshExpirationSecs with
      | (_, some err) => ({ st with store := store }, .error err)
      | (store, none) =>
        let payload : RefreshToken :=
          { ID := id, UID := u.UID, ExpiresAt := now + cfg.RefreshExpirationSecs }
        ({ st with store := store },
          .ok { identityToken := idToken,
                refreshToken := .encoded payload (c.mac cfg.RefreshSecret payload) })

/-- Modelled from the spec: `ValidateRefreshToken(tokenString)` of the missing
Token Service (sections 4.1 and 7): a string that cannot be decoded is a
BadRequest; a bad tag fails before any store access; then the identifier must
exist, unexpired, under the claimed user; every validation failure is the same
Authorization error and a store failure is Internal. -/
def ValidateRefreshToken (c : Crypto) (cfg : TSConfig) (flt : StoreFaults) (now : Int)
    (st : ServiceState) (tokenString : TokenString) : Except apperrors.Error RefreshToken :=
  match tokenString with
  | .undecodable _ => .error (apperrors.NewBadRequest "Unable to parse refresh token")
  | .encoded payload tag =>
    if tag ≠ c.mac cfg.RefreshSecret payload then
      .error (apperrors.NewAuthorization "Unable to verify user from refresh token")
    else
      match tokenRepository.Exists flt.lookup now st.store payload.UID payload.ID with
      | .error err => .error err
      | .ok false => .error (apperrors.NewAuthorization "Unable to verify user from refresh token")
      | .ok true => .ok payload

/-- Modelled from the spec: `Refresh(oldRefreshTokenString)` of the missing
Token Service (section 4.1): `ValidateRefreshToken` composed with
`NewPairFromUser(user, oldID)`, the user being the owner the validated token
names (the service reads only the id of a user). -/
def Refresh (c : Crypto) (cfg : TSConfig) (flt : StoreFaults) (now : Int)
    (st : ServiceState) (oldRefreshTokenString : TokenString) :
    ServiceState × Except apperrors.Error TokenPair :=
  match ValidateRefreshToken c cfg flt now st oldRefreshTokenString with
  | .error err => (st, .error err)
  | .ok rt =>
    NewPairFromUser c cfg flt now st
      { UID := rt.UID, Email := "", Password := "", Name := "", ImageURL := "" } (some rt.ID)

/-- Modelled from the spec: `Signout(ctx, userID)` of the missing Token
Service (section 4.1): deletes every refresh-token identifier registered for
the user; a store failure is Internal. -/
def Signout (flt : StoreFaults) (st : ServiceState) (userID : Nat) :
    ServiceState × Option apperrors.Error :=
  match tokenRepository.DeleteUserRefreshTokens flt.deleteAll st.store userID with
  | (_, some err) => (st, some err)
  | (store, none) => ({ st with store := store }, none)

end tokenService

/-- A call on the Token Service that may change the session store, with the
instant at which it runs and the store failures it meets. -/
inductive Call where
  | newPair (flt : StoreFaults) (now : Int) (u : User) (previous : Option Nat)
  | refresh (flt : StoreFaults) (now : Int) (token : TokenString)
  | signout (flt : StoreFaults) (userID : Nat)
  deriving DecidableEq, Repr

/-- The state a call leaves behind. -/
def Call.exec (c : Crypto) (cfg : TSConfig) (st : ServiceState) : Call → ServiceState
  | .newPair flt now u previous => (tokenService.NewPairFromUser c cfg flt now st u previous).1
  | .refresh flt now token => (tokenService.Refresh c cfg flt now st token).1
  | .signout flt userID => (tokenService.Signout flt st userID).1

/-- The state after a sequence of calls. -/
def runCalls (c : Crypto) (cfg : TSConfig) (st : ServiceState) (calls : List Call) :
    ServiceState :=
  calls.foldl (Call.exec c cfg) st

/-- The states the service can be in: those a sequence of calls leads to from
the empty store. -/
def Reachable (c : Crypto) (cfg : TSConfig) (st : ServiceState) : Prop :=
  ∃ calls, st = runCalls c cfg ServiceState.initial calls

/-- The pair a call issued, if it issued one. -/
def Call.issued (c : Crypto) (cfg : TSConfig) (st : ServiceState) : Call → Option TokenPair
  | .newPair flt now u previous =>
    match (tokenService.NewPairFromUser c cfg flt now st u previous).2 with
    | .ok p => some p
    | .error _ => none
  | .refresh flt now token =>
    match (tokenService.Refresh c cfg flt now st token).2 with
    | .ok p => some p
    | .error _ => none
  | .signout _ _ => none

/-- The user a call issues a pair to: the user given to `NewPairFromUser`, the
owner named by the token given to `Refresh`. -/
def Call.recipient : Call → Option Nat
  | .newPair _ _ u _ => some u.UID
  | .refresh _ _ (.encoded payload _) => some payload.UID
  | _ => none

/-- The identifier is registered in the store under the user (whether or not
it has expired). -/
def SessionStore.registered (s : SessionStore) (userID tokenID : Nat) : Prop :=
  ∃ e ∈ s.sessions, e.UID = userID ∧ e.TokenID = tokenID

/-- Every identifier in the store has been minted: it lies below the counter. -/
def ServiceState.Minted (st : ServiceState) : Prop :=
  ∀ e ∈ st.store.sessions, e.TokenID < st.nextID

/-- A later state of the service: the counter has not gone back, and every
registration is an old one or one for an identifier minted in between. -/
def ServiceState.Evolves (st st' : ServiceState) : Prop :=
  st.nextID ≤ st'.nextID ∧
  ∀ userID tokenID, st'.store.registered userID tokenID →
    st.store.registered userID tokenID ∨ (st.nextID ≤ tokenID ∧ tokenID < st'.nextID)

/-- Primitives for the examples: signing always succeeds, and the tag mixes
the secret with the payload. -/
def toyCrypto : Crypto :=
  { sign := fun _ _ => some "header.claims.signature",
    mac := fun secret p => secret.length + 31 * p.ID + 7 * p.UID }

/-- The token-service configuration of the examples (refresh lifetime 3600 s). -/
def devConfig : TSConfig :=
  { TokenRepository := { Redis := someSources.RedisClient },
    PrivKey := { N := 3233, E := 17, D := 2753 },
    PubKey := { N := 3233, E := 17 },
    RefreshSecret := "topsecret",
    IDExpirationSecs := 900,
    RefreshExpirationSecs := 3600 }

/-- The store does not answer lookups. -/
def lookupDown : StoreFaults :=
  { set := false, delete := false, deleteAll := false, lookup := true }

/-- The login of the stored user at instant 1000. -/
def aliceLoginCall : Call := .newPair StoreFaults.healthy 1000 alice none

/-- The state after the login. -/
def afterLogin : ServiceState := aliceLoginCall.exec toyCrypto devConfig ServiceState.initial

/-- The refresh token the login issued. -/
def firstToken : TokenString :=
  .encoded { ID := 0, UID := 42, ExpiresAt := 4600 } 303

/-- The state after the first token has been redeemed at instant 1010. -/
def afterRefresh : ServiceState :=
  (tokenService.Refresh toyCrypto devConfig StoreFaults.healthy 1010 afterLogin firstToken).1

/-- The pair the redemption of the first token issued. -/
def secondPair : TokenPair :=
  { identityToken := "header.claims.signature",
    refreshToken := .encoded { ID := 1, UID := 42, ExpiresAt := 4610 } 334 }

/-- The pair the login issued. -/
def firstPair : TokenPair :=
  { identityToken := "header.claims.signature", refreshToken := firstToken }

/-- The state after the login, the redemption of the first token and a
sign-out of the user. -/
def afterSignout : ServiceState :=
  (tokenService.Signout StoreFaults.healthy afterRefresh 42).1

/-! ## Theorems: the user service -/

/-- C1: `Signin` returns nil exactly when `FindByEmail` returns a user without
error and `comparePasswords` answers `(true, nil)`; a lookup error and a
`(false, nil)` comparison both give an Authorization error, and an error of
`comparePasswords` gives an Internal error. -/
theorem signin_result (s : userService) (pw : Passwords) (w : World) (clk : SigninClock)
    (lg : helper.LogState) (ctx : Context) (u : User) :
    ((s.Signin pw w clk lg ctx u).ret = .returned none ↔
        ∃ f, s.UserRepository.FindByEmail ctx u.Email = { user := some f, err := none } ∧
          pw.comparePasswords f.Password u.Password = (true, none)) ∧
    ((s.UserRepository.FindByEmail ctx u.Email).err ≠ none →
        (s.Signin pw w clk lg ctx u).ret.errKind = some .Authorization) ∧
    (∀ f, s.UserRepository.FindByEmail ctx u.Email = { user := some f, err := none } →
        pw.comparePasswords f.Password u.Password = (false, none) →
        (s.Signin pw w clk lg ctx u).ret.errKind = some .Authorization) ∧
    (∀ f b e, s.UserRepository.FindByEmail ctx u.Email = { user := some f, err := none } →
        pw.comparePasswords f.Password u.Password = (b, some e) →
        (s.Signin pw w clk lg ctx u).ret.errKind = some .Internal) := by
  rcases hfound : s.UserRepository.FindByEmail ctx u.Email with ⟨fu, fe⟩
  cases fe with
  | some e =>
    simp [userService.Signin, hfound, Outcome.errKind, GoError.kind, apperrors.NewAuthorization]
  | none =>
    cases fu with
    | none => simp [userService.Signin, hfound]
    | some f =>
      rcases hcmp : pw.comparePasswords f.Password u.Password with ⟨b, ce⟩
      cases ce with
      | some e =>
        simp [userService.Signin, hfound, hcmp, Outcome.errKind, GoError.kind,
          apperrors.NewInternal]
      | none =>
        cases b <;>
          simp [userService.Signin, hfound, hcmp, Outcome.errKind, GoError.kind,
            apperrors.NewAuthorization] <;>
          (intro f1; constructor <;> (intro e h; subst h; simp [hcmp]))

/-- Witness for C1: the four cases on concrete repositories and password helpers. -/
theorem signin_result_witness :
    (aliceService.Signin plainPasswords bareWorld someClock helper.LogState.initial someCtx
        aliceLogin).ret = .returned none ∧
    (aliceService.Signin plainPasswords bareWorld someClock helper.LogState.initial someCtx
        aliceWrong).ret.errKind = some .Authorization ∧
    ((failingService (.lib "sql: no rows in result set")).Signin plainPasswords bareWorld
        someClock helper.LogState.initial someCtx aliceLogin).ret.errKind = some .Authorization ∧
    (aliceService.Signin brokenPasswords bareWorld someClock helper.LogState.initial someCtx
        aliceLogin).ret.errKind = some .Internal :=
  ⟨(signin_result aliceService plainPasswords bareWorld someClock helper.LogState.initial
      someCtx aliceLogin).1.2 ⟨alice, rfl, by decide⟩,
    (signin_result aliceService plainPasswords bareWorld someClock helper.LogState.initial
      someCtx aliceWrong).2.2.1 alice rfl (by decide),
    (signin_result (failingService (.lib "sql: no rows in result set")) plainPasswords bareWorld
      someClock helper.LogState.initial someCtx aliceLogin).2.1 (by decide),
    (signin_result aliceService brokenPasswords bareWorld someClock helper.LogState.initial
      someCtx aliceLogin).2.2.2 alice false _ rfl rfl⟩

/-- C2: when `Signin` returns nil the caller's `*u` is the user `FindByEmail`
returned, field for field; when it returns an error `*u` is what it was. -/
theorem signin_frame (s : userService) (pw : Passwords) (w : World) (clk : SigninClock)
    (lg : helper.LogState) (ctx : Context) (u : User) :
    ((s.Signin pw w clk lg ctx u).ret = .returned none →
        (s.UserRepository.FindByEmail ctx u.Email).user = some (s.Signin pw w clk lg ctx u).u) ∧
    (∀ e, (s.Signin pw w clk lg ctx u).ret = .returned (some e) →
        (s.Signin pw w clk lg ctx u).u = u) := by
  rcases hfound : s.UserRepository.FindByEmail ctx u.Email with ⟨fu, fe⟩
  cases fe with
  | some e => simp [userService.Signin, hfound]
  | none =>
    cases fu with
    | none => simp [userService.Signin, hfound]
    | some f =>
      rcases hcmp : pw.comparePasswords f.Password u.Password with ⟨b, ce⟩
      cases ce with
      | some e => simp [userService.Signin, hfound, hcmp]
      | none => cases b <;> simp [userService.Signin, hfound, hcmp]

/-- Witness for C2: a successful sign-in fills `*u` with the stored user, a
failed one leaves the request untouched. -/
theorem signin_frame_witness :
    (aliceService.UserRepository.FindByEmail someCtx aliceLogin.Email).user =
      some (aliceService.Signin plainPasswords bareWorld someClock
        helper.LogState.initial someCtx aliceLogin).u ∧
    (aliceService.Signin plainPasswords bareWorld someClock helper.LogState.initial someCtx
        aliceWrong).u = aliceWrong :=
  ⟨(signin_frame aliceService plainPasswords bareWorld someClock
      helper.LogState.initial someCtx aliceLogin).1 (by decide),
    (signin_frame aliceService plainPasswords bareWorld someClock helper.LogState.initial
      someCtx aliceWrong).2 (.app (apperrors.NewAuthorization invalidCombination)) (by decide)⟩

/-- C3: a `Signin` that fails because `FindByEmail` returned an error and a
`Signin` that fails because the password does not match return equal errors:
the Authorization kind with the message "Invalid email and password
combination". -/
theorem signin_failures_indistinguishable
    (s₁ s₂ : userService) (pw₁ pw₂ : Passwords) (w₁ w₂ : World) (clk₁ clk₂ : SigninClock)
    (lg₁ lg₂ : helper.LogState) (ctx₁ ctx₂ : Context) (u₁ u₂ f : User)
    (hlookup : (s₁.UserRepository.FindByEmail ctx₁ u₁.Email).err ≠ none)
    (hfound : s₂.UserRepository.FindByEmail ctx₂ u₂.Email = { user := some f, err := none })
    (hmismatch : pw₂.comparePasswords f.Password u₂.Password = (false, none)) :
    (s₁.Signin pw₁ w₁ clk₁ lg₁ ctx₁ u₁).ret = (s₂.Signin pw₂ w₂ clk₂ lg₂ ctx₂ u₂).ret ∧
    (s₁.Signin pw₁ w₁ clk₁ lg₁ ctx₁ u₁).ret =
      .returned (some (.app (apperrors.NewAuthorization
        "Invalid email and password combination"))) ∧
    (s₁.Signin pw₁ w₁ clk₁ lg₁ ctx₁ u₁).ret =
      .returned (some (.app { Kind := .Authorization,
                              Message := "Invalid email and password combination" })) := by
  have h₂ : (s₂.Signin pw₂ w₂ clk₂ lg₂ ctx₂ u₂).ret =
      .returned (some (.app { Kind := .Authorization,
                              Message := "Invalid email and password combination" })) := by
    simp [userService.Signin, hfound, hmismatch, apperrors.NewAuthorization]
  have h₁ : (s₁.Signin pw₁ w₁ clk₁ lg₁ ctx₁ u₁).ret =
      .returned (some (.app { Kind := .Authorization,
                              Message := "Invalid email and password combination" })) := by
    rcases hf : s₁.UserRepository.FindByEmail ctx₁ u₁.Email with ⟨fu, fe⟩
    cases fe with
    | none => simp [hf] at hlookup
    | some e => simp [userService.Signin, hf, apperrors.NewAuthorization]
  exact ⟨h₁.trans h₂.symm, h₁, h₁⟩

/-- Witness for C3: an unknown email and a wrong password give the same error. -/
theorem signin_failures_indistinguishable_witness :
    ((failingService (.lib "sql: no rows in result set")).Signin plainPasswords bareWorld
        someClock helper.LogState.initial someCtx aliceLogin).ret =
      (aliceService.Signin plainPasswords bareWorld someClock helper.LogState.initial someCtx
        aliceWrong).ret :=
  (signin_failures_indistinguishable (failingService (.lib "sql: no rows in result set"))
    aliceService plainPasswords plainPasswords bareWorld bareWorld someClock someClock
    helper.LogState.initial helper.LogState.initial someCtx someCtx aliceLogin aliceWrong alice
    (by decide) rfl (by decide)).1

/-- C4, as stated, fails: when the lookup fails with an Internal-kind error
(the store is down), `Signin` answers with an Authorization error. -/
theorem signin_store_down_is_authorization :
    ¬ ∀ (s : userService) (pw : Passwords) (w : World) (clk : SigninClock)
        (lg : helper.LogState) (ctx : Context) (u : User) (e : GoError),
        (s.UserRepository.FindByEmail ctx u.Email).err = some e →
        e.kind = some .Internal →
        (s.Signin pw w clk lg ctx u).ret.errKind = some .Internal := by
  intro h
  have := h (failingService (.app apperrors.NewInternal)) plainPasswords bareWorld someClock
    helper.LogState.initial someCtx aliceLogin (.app apperrors.NewInternal) rfl rfl
  revert this
  decide

/-- C4, amended: whatever error `FindByEmail` returns, an Internal-kind one
included, `Signin` returns the Authorization error with the generic message;
the error of the store goes to the log only, as the `response` field of the
entry `CreateLog` writes. -/
theorem signin_lookup_error_collapsed (s : userService) (pw : Passwords) (w : World)
    (clk : SigninClock) (lg : helper.LogState) (ctx : Context) (u : User) (e : GoError)
    (hlookup : (s.UserRepository.FindByEmail ctx u.Email).err = some e) :
    (s.Signin pw w clk lg ctx u).ret =
      .returned (some (.app (apperrors.NewAuthorization "Invalid email and password combination"))) ∧
    (s.Signin pw w clk lg ctx u).ret.errKind = some .Authorization ∧
    (s.Signin pw w clk lg ctx u).log =
      helper.CreateLog w lg { Event := "POST-SIGNIN", ResponseTime := clk.sinceStart,
                              Response := .error e, Key := u.Email } := by
  rcases hf : s.UserRepository.FindByEmail ctx u.Email with ⟨fu, fe⟩
  rw [hf] at hlookup
  simp only at hlookup
  subst hlookup
  simp [userService.Signin, hf, Outcome.errKind, GoError.kind, apperrors.NewAuthorization]

/-- Witness for C4, amended: a store that is down is reported as Authorization. -/
theorem signin_lookup_error_collapsed_witness :
    ((failingService (.app apperrors.NewInternal)).Signin plainPasswords bareWorld someClock
        helper.LogState.initial someCtx aliceLogin).ret.errKind = some .Authorization :=
  (signin_lookup_error_collapsed (failingService (.app apperrors.NewInternal)) plainPasswords
    bareWorld someClock helper.LogState.initial someCtx aliceLogin (.app apperrors.NewInternal)
    rfl).2.1

/-- C9: on a password mismatch `Signin` writes, through `StringLog` at level
"error", an entry whose message is "Invalid email : " + u.Email +
" and password : " + u.Password + " combination"; the supplied plaintext
password is part of the log output. -/
theorem signin_mismatch_logs_password (s : userService) (pw : Passwords) (w : World)
    (clk : SigninClock) (lg : helper.LogState) (ctx : Context) (u f : User)
    (hfound : s.UserRepository.FindByEmail ctx u.Email = { user := some f, err := none })
    (hmismatch : pw.comparePasswords f.Password u.Password = (false, none)) :
    (s.Signin pw w clk lg ctx u).log =
      helper.StringLog w lg "error"
        ("Invalid email : " ++ u.Email ++ " and password : " ++ u.Password ++ " combination") ∧
    ∃ notice out, (s.Signin pw w clk lg ctx u).log.entries =
      lg.entries ++ notice ++
        [{ out := out, level := "error",
           message := "Invalid email : " ++ u.Email ++ " and password : " ++ u.Password ++
             " combination",
           fields := [] }] := by
  have hlog : (s.Signin pw w clk lg ctx u).log =
      helper.StringLog w lg "error"
        ("Invalid email : " ++ u.Email ++ " and password : " ++ u.Password ++ " combination") := by
    simp [userService.Signin, hfound, hmismatch]
  refine ⟨hlog, ?_⟩
  rw [hlog]
  by_cases hopen : w.openFile lg.opened (helper.logDir w ++ "/mylog.log") = true
  · exact ⟨[], .file (helper.logDir w ++ "/mylog.log"), by
      simp [helper.StringLog, helper.LogState.write, hopen]⟩
  · exact ⟨[{ out := .stdout, level := "info",
              message := "Failed to log to file, using default stderr (string log)",
              fields := [] }], .stdout, by
      simp [helper.StringLog, helper.LogState.write, hopen]⟩

/-- Witness for C9: the wrong guess "guess" ends up in the log. -/
theorem signin_mismatch_logs_password_witness :
    (aliceService.Signin plainPasswords bareWorld someClock helper.LogState.initial someCtx
        aliceWrong).log =
      helper.StringLog bareWorld helper.LogState.initial "error"
        ("Invalid email : " ++ "alice@example.com" ++ " and password : " ++ "guess" ++
          " combination") :=
  (signin_mismatch_logs_password aliceService plainPasswords bareWorld someClock
    helper.LogState.initial someCtx aliceWrong alice rfl (by decide)).1

/-- C10: `Signup` never hands the plaintext password to the repository: when
`hashPassword` fails it returns an Internal error and `Create` is not called;
otherwise `Create` is called exactly once, with `u` carrying the hash as
`Password` and every other field as it was, and `Signup` returns what
`Create` returned. -/
theorem signup_hashes_before_create (s : userService) (pw : Passwords)
    (lg : helper.LogState) (ctx : Context) (u : User) :
    (∀ h e, pw.hashPassword u.Password = (h, some e) →
        (s.Signup pw lg ctx u).ret = .returned (some (.app apperrors.NewInternal)) ∧
        (s.Signup pw lg ctx u).ret.errKind = some .Internal ∧
        (s.Signup pw lg ctx u).created = []) ∧
    (∀ h, pw.hashPassword u.Password = (h, none) →
        (s.Signup pw lg ctx u).created =
          [{ UID := u.UID, Email := u.Email, Password := h, Name := u.Name,
             ImageURL := u.ImageURL }] ∧
        (s.Signup pw lg ctx u).ret =
          .returned (s.UserRepository.Create ctx
            { UID := u.UID, Email := u.Email, Password := h, Name := u.Name,
              ImageURL := u.ImageURL }).err) := by
  constructor
  · intro h e hh
    simp [userService.Signup, hh, Outcome.errKind, GoError.kind, apperrors.NewInternal]
  · intro h hh
    simp only [userService.Signup, hh]
    cases hc : (s.UserRepository.Create ctx { u with Password := h }).err <;> simp [hc]

/-- Witness for C10: a sign-up stores the hash, a failing hash stops before `Create`. -/
theorem signup_hashes_before_create_witness :
    (aliceService.Signup plainPasswords helper.LogState.initial someCtx aliceLogin).created =
      [{ UID := 0, Email := "alice@example.com", Password := "hashed:s3cret", Name := "",
         ImageURL := "" }] ∧
    (aliceService.Signup brokenPasswords helper.LogState.initial someCtx aliceLogin).created = [] :=
  ⟨((signup_hashes_before_create aliceService plainPasswords helper.LogState.initial someCtx
      aliceLogin).2 "hashed:s3cret" (by decide)).1,
    ((signup_hashes_before_create aliceService brokenPasswords helper.LogState.initial someCtx
      aliceLogin).1 "" (.lib "scrypt: out of memory") rfl).2.2⟩

/-! ## Theorems: start-up -/

/-- C5, as stated, fails: with `REFRESH_SECRET` missing and everything else in
place, `inject` returns no error and builds the token service with the empty
string as `RefreshSecret`. -/
theorem inject_accepts_missing_refresh_secret :
    ¬ ∀ (w : World) (lg : helper.LogState) (d : dataSources),
        w.getenv "REFRESH_SECRET" = "" →
        (inject w lg d).err ≠ none ∧
          ∀ c ∈ (inject w lg d).tokenServices, c.RefreshSecret ≠ "" := by
  intro h
  have := (h noSecretWorld helper.LogState.initial someSources (by decide)).1
  revert this
  decide

/-- C5, amended: `inject` does not validate `REFRESH_SECRET`.  Whether it
returns an error does not depend on that variable, and every configuration it
passes to `NewTokenService` carries as `RefreshSecret` exactly what
`os.Getenv("REFRESH_SECRET")` gave, the empty string when it is missing. -/
theorem inject_ignores_refresh_secret (w : World) (lg : helper.LogState) (d : dataSources)
    (v : String) :
    (inject (w.setenv "REFRESH_SECRET" v) lg d).err = (inject w lg d).err ∧
    (inject (w.setenv "REFRESH_SECRET" v) lg d).router.isSome = (inject w lg d).router.isSome ∧
    ∀ c ∈ (inject w lg d).tokenServices, c.RefreshSecret = w.getenv "REFRESH_SECRET" := by
  have hk : ∀ k : String, k ≠ "REFRESH_SECRET" → (w.setenv "REFRESH_SECRET" v).getenv k = w.getenv k := by
    intro k hk
    simp [World.setenv, hk]
  have h1 := hk "PRIV_KEY_FILE" (by decide)
  have h2 := hk "PUB_KEY_FILE" (by decide)
  have h3 := hk "ID_TOKEN_EXP" (by decide)
  have h4 := hk "REFRESH_TOKEN_EXP" (by decide)
  have h5 := hk "HANDLER_TIMEOUT" (by decide)
  have hr : (w.setenv "REFRESH_SECRET" v).readFile = w.readFile := rfl
  have hp : (w.setenv "REFRESH_SECRET" v).parseRSAPrivateKey = w.parseRSAPrivateKey := rfl
  have hq : (w.setenv "REFRESH_SECRET" v).parseRSAPublicKey = w.parseRSAPublicKey := rfl
  have hi : (w.setenv "REFRESH_SECRET" v).parseInt = w.parseInt := rfl
  simp only [inject, h1, h2, h3, h4, h5, hr, hp, hq, hi]
  rcases h₁ : w.readFile (w.getenv "PRIV_KEY_FILE") with e | priv <;> simp only [h₁]
  · simp
  rcases h₂ : w.parseRSAPrivateKey priv with e | privKey <;> simp only [h₂]
  · simp
  rcases h₃ : w.readFile (w.getenv "PUB_KEY_FILE") with e | pub <;> simp only [h₃]
  · simp
  rcases h₄ : w.parseRSAPublicKey pub with e | pubKey <;> simp only [h₄]
  · simp
  rcases h₅ : w.parseInt (w.getenv "ID_TOKEN_EXP") with e | idExp <;> simp only [h₅]
  · simp
  rcases h₆ : w.parseInt (w.getenv "REFRESH_TOKEN_EXP") with e | refreshExp <;> simp only [h₆]
  · simp
  rcases h₇ : w.parseInt (w.getenv "HANDLER_TIMEOUT") with e | ht <;> simp only [h₇]
  · simp
  · simp

/-- The configuration `inject` depends on is invalid: a key file cannot be
read or parsed, or a lifetime does not parse as an integer. -/
lemma inject_fails_of_invalid (w : World) (lg : helper.LogState) (d : dataSources)
    (h : ((w.readFile (w.getenv "PRIV_KEY_FILE")).bind w.parseRSAPrivateKey).failed = true ∨
      ((w.readFile (w.getenv "PUB_KEY_FILE")).bind w.parseRSAPublicKey).failed = true ∨
      (w.parseInt (w.getenv "ID_TOKEN_EXP")).failed = true ∨
      (w.parseInt (w.getenv "REFRESH_TOKEN_EXP")).failed = true) :
    (inject w lg d).router = none ∧ (inject w lg d).err ≠ none := by
  simp only [inject]
  rcases h₁ : w.readFile (w.getenv "PRIV_KEY_FILE") with e | priv <;> simp only [h₁]
  · simp
  rcases h₂ : w.parseRSAPrivateKey priv with e | privKey <;> simp only [h₂]
  · simp
  rcases h₃ : w.readFile (w.getenv "PUB_KEY_FILE") with e | pub <;> simp only [h₃]
  · simp
  rcases h₄ : w.parseRSAPublicKey pub with e | pubKey <;> simp only [h₄]
  · simp
  rcases h₅ : w.parseInt (w.getenv "ID_TOKEN_EXP") with e | idExp <;> simp only [h₅]
  · simp
  rcases h₆ : w.parseInt (w.getenv "REFRESH_TOKEN_EXP") with e | refreshExp <;> simp only [h₆]
  · simp
  exfalso
  simp [h₁, h₂, h₃, h₄, h₅, h₆, Except.bind, Except.failed] at h

/-- When `inject` fails whatever data sources it is given, `main` does not
reach the start of the HTTP server. -/
lemma main_stops_of_inject_err (w : World)
    (h : ∀ lg d, (inject w lg d).err ≠ none) (lg : helper.LogState) :
    ∀ addr handler, (cmd.main w lg).outcome ≠ .serve addr handler := by
  intro addr handler
  simp only [cmd.main]
  cases w.dotenvLoad (".." ++ "/.env.dev") with
  | some err => simp
  | none =>
    rcases hds : initDS w (lg.print "Starting server...\n") with ⟨r, lg₁⟩
    cases r with
    | error err => simp
    | ok ds =>
      simp only
      cases hi : (inject w lg₁ ds).err with
      | none => exact absurd hi (h lg₁ ds)
      | some err => simp

/-- C6: when the private or the public key file cannot be read or parsed, or
`ID_TOKEN_EXP` or `REFRESH_TOKEN_EXP` is missing or does not parse as an
integer, `inject` returns a nil router with a non-nil error and `main` exits
before the HTTP server is started; when all four are valid, the `TSConfig`
passed to `NewTokenService` carries exactly the parsed keys and lifetimes.
(A missing variable reads as the empty string, which `strconv.ParseInt`
rejects.) -/
theorem inject_fail_fast (w : World) (lg : helper.LogState) (d : dataSources) :
    (((w.readFile (w.getenv "PRIV_KEY_FILE")).bind w.parseRSAPrivateKey).failed = true ∨
      ((w.readFile (w.getenv "PUB_KEY_FILE")).bind w.parseRSAPublicKey).failed = true ∨
      (w.parseInt (w.getenv "ID_TOKEN_EXP")).failed = true ∨
      (w.parseInt (w.getenv "REFRESH_TOKEN_EXP")).failed = true →
      (inject w lg d).router = none ∧ (inject w lg d).err ≠ none ∧
        ∀ addr handler, (cmd.main w lg).outcome ≠ .serve addr handler) ∧
    ((w.parseInt "").failed = true →
      w.getenv "ID_TOKEN_EXP" = "" ∨ w.getenv "REFRESH_TOKEN_EXP" = "" →
      (inject w lg d).router = none ∧ (inject w lg d).err ≠ none ∧
        ∀ addr handler, (cmd.main w lg).outcome ≠ .serve addr handler) ∧
    (∀ priv privKey pub pubKey idExp refreshExp,
      w.readFile (w.getenv "PRIV_KEY_FILE") = .ok priv →
      w.parseRSAPrivateKey priv = .ok privKey →
      w.readFile (w.getenv "PUB_KEY_FILE") = .ok pub →
      w.parseRSAPublicKey pub = .ok pubKey →
      w.parseInt (w.getenv "ID_TOKEN_EXP") = .ok idExp →
      w.parseInt (w.getenv "REFRESH_TOKEN_EXP") = .ok refreshExp →
      (inject w lg d).tokenServices =
        [{ TokenRepository := { Redis := d.RedisClient },
           PrivKey := privKey,
           PubKey := pubKey,
           RefreshSecret := w.getenv "REFRESH_SECRET",
           IDExpirationSecs := idExp,
           RefreshExpirationSecs := refreshExp }]) := by
  have key : ((w.readFile (w.getenv "PRIV_KEY_FILE")).bind w.parseRSAPrivateKey).failed = true ∨
      ((w.readFile (w.getenv "PUB_KEY_FILE")).bind w.parseRSAPublicKey).failed = true ∨
      (w.parseInt (w.getenv "ID_TOKEN_EXP")).failed = true ∨
      (w.parseInt (w.getenv "REFRESH_TOKEN_EXP")).failed = true →
      (inject w lg d).router = none ∧ (inject w lg d).err ≠ none ∧
        ∀ addr handler, (cmd.main w lg).outcome ≠ .serve addr handler := by
    intro h
    exact ⟨(inject_fails_of_invalid w lg d h).1, (inject_fails_of_invalid w lg d h).2,
      main_stops_of_inject_err w (fun lg' d' => (inject_fails_of_invalid w lg' d' h).2) lg⟩
  refine ⟨key, ?_, ?_⟩
  · intro hempty hmissing
    apply key
    rcases hmissing with hm | hm
    · exact Or.inr (Or.inr (Or.inl (by rw [hm]; exact hempty)))
    · exact Or.inr (Or.inr (Or.inr (by rw [hm]; exact hempty)))
  · intro priv privKey pub pubKey idExp refreshExp h₁ h₂ h₃ h₄ h₅ h₆
    simp only [inject, h₁, h₂, h₃, h₄, h₅, h₆]
    cases w.parseInt (w.getenv "HANDLER_TIMEOUT") <;> rfl

/-- Witness for C6: without `ID_TOKEN_EXP` start-up stops before serving, and
with a valid configuration the token service gets the parsed keys and
lifetimes. -/
theorem inject_fail_fast_witness :
    ((inject noLifetimeWorld helper.LogState.initial someSources).router = none ∧
      (inject noLifetimeWorld helper.LogState.initial someSources).err ≠ none ∧
      ∀ addr handler,
        (cmd.main noLifetimeWorld helper.LogState.initial).outcome ≠ .serve addr handler) ∧
    (inject noSecretWorld helper.LogState.initial someSources).tokenServices =
      [{ TokenRepository := { Redis := someSources.RedisClient },
         PrivKey := { N := 3233, E := 17, D := 2753 },
         PubKey := { N := 3233, E := 17 },
         RefreshSecret := "",
         IDExpirationSecs := 900,
         RefreshExpirationSecs := 259200 }] :=
  ⟨(inject_fail_fast noLifetimeWorld helper.LogState.initial someSources).2.1 (by decide)
      (Or.inl (by decide)),
    (inject_fail_fast noSecretWorld helper.LogState.initial someSources).2.2
      privPem _ pubPem _ 900 259200 (by decide) (by decide) (by decide) (by decide)
      (by decide) (by decide)⟩

/-! ## Theorems: the Token Service -/

section TokenService

variable (c : Crypto) (cfg : TSConfig)

lemma registered_delete {s : SessionStore} {u t userID tokenID : Nat}
    (h : (tokenRepository.DeleteRefreshToken false s u t).1.registered userID tokenID) :
    s.registered userID tokenID ∧ ¬ (userID = u ∧ tokenID = t) := by
  obtain ⟨e, he, h₁, h₂⟩ := h
  simp only [tokenRepository.DeleteRefreshToken, Bool.false_eq_true, if_false,
    List.mem_filter] at he
  refine ⟨⟨e, he.1, h₁, h₂⟩, ?_⟩
  rintro ⟨rfl, rfl⟩
  simp [h₁, h₂] at he

lemma registered_set {s : SessionStore} {now ttl : Int} {u t userID tokenID : Nat}
    (h : (tokenRepository.SetRefreshToken false now s u t ttl).1.registered userID tokenID) :
    s.registered userID tokenID ∨ (userID = u ∧ tokenID = t) := by
  obtain ⟨e, he, h₁, h₂⟩ := h
  simp only [tokenRepository.SetRefreshToken, Bool.false_eq_true, if_false,
    List.mem_cons, List.mem_filter] at he
  rcases he with rfl | he
  · exact Or.inr ⟨h₁.symm, h₂.symm⟩
  · exact Or.inl ⟨e, he.1, h₁, h₂⟩

lemma registered_deleteAll {s : SessionStore} {u userID tokenID : Nat}
    (h : (tokenRepository.DeleteUserRefreshTokens false s u).1.registered userID tokenID) :
    s.registered userID tokenID ∧ userID ≠ u := by
  obtain ⟨e, he, h₁, h₂⟩ := h
  simp only [tokenRepository.DeleteUserRefreshTokens, Bool.false_eq_true, if_false,
    List.mem_filter] at he
  refine ⟨⟨e, he.1, h₁, h₂⟩, ?_⟩
  rintro rfl
  simp [h₁] at he

lemma exists_eq_false_of_not_registered {s : SessionStore} {now : Int} {userID tokenID : Nat}
    (h : ¬ s.registered userID tokenID) :
    tokenRepository.Exists false now s userID tokenID = .ok false := by
  simp only [tokenRepository.Exists, Bool.false_eq_true, if_false]
  congr 1
  rw [Bool.eq_false_iff]
  intro hany
  rw [List.any_eq_true] at hany
  obtain ⟨e, he, hp⟩ := hany
  simp only [Bool.and_eq_true, beq_iff_eq, decide_eq_true_eq] at hp
  exact h ⟨e, he, hp.1.1, hp.1.2⟩

lemma registered_of_exists {s : SessionStore} {flt : Bool} {now : Int} {userID tokenID : Nat}
    (h : tokenRepository.Exists flt now s userID tokenID = .ok true) :
    flt = false ∧ s.registered userID tokenID := by
  cases flt with
  | true => simp [tokenRepository.Exists] at h
  | false =>
    simp only [tokenRepository.Exists, Bool.false_eq_true, if_false, Except.ok.injEq,
      List.any_eq_true, Bool.and_eq_true, beq_iff_eq, decide_eq_true_eq] at h
    obtain ⟨e, he, hp⟩ := h
    exact ⟨rfl, e, he, hp.1.1, hp.1.2⟩

lemma evolves_refl (st : ServiceState) : st.Evolves st :=
  ⟨le_refl _, fun _ _ h => Or.inl h⟩

lemma evolves_trans {a b d : ServiceState} (h₁ : a.Evolves b) (h₂ : b.Evolves d) :
    a.Evolves d := by
  refine ⟨le_trans h₁.1 h₂.1, fun userID tokenID h => ?_⟩
  rcases h₂.2 userID tokenID h with hb | ⟨hlo, hhi⟩
  · rcases h₁.2 userID tokenID hb with ha | ⟨hlo, hhi⟩
    · exact Or.inl ha
    · exact Or.inr ⟨hlo, lt_of_lt_of_le hhi h₂.1⟩
  · exact Or.inr ⟨le_trans h₁.1 hlo, hhi⟩

lemma minted_of_evolves {a b : ServiceState} (ha : a.Minted) (h : a.Evolves b) : b.Minted := by
  intro e he
  rcases h.2 e.UID e.TokenID ⟨e, he, rfl, rfl⟩ with ⟨e', he', _, h₂⟩ | ⟨_, hhi⟩
  · exact lt_of_lt_of_le (h₂ ▸ ha e' he') h.1
  · exact hhi

lemma not_registered_of_evolves {a b : ServiceState} (h : a.Evolves b) {userID tokenID : Nat}
    (hlt : tokenID < a.nextID) (hn : ¬ a.store.registered userID tokenID) :
    ¬ b.store.registered userID tokenID := by
  intro hb
  rcases h.2 userID tokenID hb with ha | ⟨hlo, _⟩
  · exact hn ha
  · omega

lemma newPair_evolves (flt : StoreFaults) (now : Int) (st : ServiceState) (u : User)
    (previous : Option Nat) :
    st.Evolves (tokenService.NewPairFromUser c cfg flt now st u previous).1 := by
  simp only [tokenService.NewPairFromUser]
  cases c.sign cfg.PrivKey
      { Subject := u.UID, IssuedAt := now, ExpiresAt := now + cfg.IDExpirationSecs } with
  | none => exact evolves_refl st
  | some idToken =>
    simp only
    have hdel : ∀ store : SessionStore,
        (∀ userID tokenID, store.registered userID tokenID → st.store.registered userID tokenID) →
        st.Evolves
          (match tokenRepository.SetRefreshToken flt.set now store u.UID st.nextID
              cfg.RefreshExpirationSecs with
            | (_, some err) =>
              (({ store := store, nextID := st.nextID + 1 } : ServiceState),
                (Except.error err : Except apperrors.Error TokenPair))
            | (store', none) =>
              ({ store := store', nextID := st.nextID + 1 },
                .ok { identityToken := idToken,
                      refreshToken := .encoded
                        { ID := st.nextID, UID := u.UID,
                          ExpiresAt := now + cfg.RefreshExpirationSecs }
                        (c.mac cfg.RefreshSecret
                          { ID := st.nextID, UID := u.UID,
                            ExpiresAt := now + cfg.RefreshExpirationSecs }) })).1 := by
      intro store hsub
      cases hset : flt.set with
      | true =>
        simp only [tokenRepository.SetRefreshToken, if_true]
        exact ⟨Nat.le_succ _, fun a b h => Or.inl (hsub a b h)⟩
      | false =>
        refine ⟨Nat.le_succ _, fun a b h => ?_⟩
        have h' : (tokenRepository.SetRefreshToken false now store u.UID st.nextID
            cfg.RefreshExpirationSecs).1.registered a b := by
          simpa [tokenRepository.SetRefreshToken] using h
        rcases registered_set h' with hold | ⟨_, rfl⟩
        · exact Or.inl (hsub a b hold)
        · exact Or.inr ⟨le_refl _, Nat.lt_succ_self _⟩
    cases previous with
    | none => exact hdel st.store (fun _ _ h => h)
    | some prev =>
      cases hd : flt.delete with
      | true =>
        simp only [tokenRepository.DeleteRefreshToken, if_true]
        exact ⟨Nat.le_succ _, fun a b h => Or.inl h⟩
      | false =>
        simp only [tokenRepository.DeleteRefreshToken, Bool.false_eq_true, if_false]
        exact hdel _ (fun a b h => (registered_delete (s := st.store) (u := u.UID) (t := prev)
          (by simpa [tokenRepository.DeleteRefreshToken] using h)).1)

lemma newPair_ok {flt : StoreFaults} {now : Int} {st : ServiceState} {u : User}
    {previous : Option Nat} {pair : TokenPair}
    (h : (tokenService.NewPairFromUser c cfg flt now st u previous).2 = .ok pair) :
    pair.refreshToken =
      .encoded { ID := st.nextID, UID := u.UID, ExpiresAt := now + cfg.RefreshExpirationSecs }
        (c.mac cfg.RefreshSecret
          { ID := st.nextID, UID := u.UID, ExpiresAt := now + cfg.RefreshExpirationSecs }) ∧
    (tokenService.NewPairFromUser c cfg flt now st u previous).1.nextID = st.nextID + 1 ∧
    ∀ prev, previous = some prev → prev ≠ st.nextID →
      ¬ (tokenService.NewPairFromUser c cfg flt now st u previous).1.store.registered u.UID prev := by
  simp only [tokenService.NewPairFromUser] at h ⊢
  cases hs : c.sign cfg.PrivKey
      { Subject := u.UID, IssuedAt := now, ExpiresAt := now + cfg.IDExpirationSecs } with
  | none => simp [hs] at h
  | some idToken =>
    simp only [hs] at h ⊢
    cases hset : flt.set with
    | true =>
      exfalso
      cases previous with
      | none => simp [tokenRepository.SetRefreshToken, hset] at h
      | some prev =>
        cases hd : flt.delete <;>
          simp [tokenRepository.SetRefreshToken, tokenRepository.DeleteRefreshToken, hset, hd] at h
    | false =>
      cases previous with
      | none =>
        simp only [tokenRepository.SetRefreshToken, hset, Bool.false_eq_true, if_false,
          Except.ok.injEq] at h ⊢
        subst h
        simp
      | some prev =>
        cases hd : flt.delete with
        | true =>
          simp [tokenRepository.DeleteRefreshToken, hd] at h
        | false =>
          simp only [tokenRepository.SetRefreshToken, tokenRepository.DeleteRefreshToken, hset, hd,
            Bool.false_eq_true, if_false, Except.ok.injEq] at h ⊢
          subst h
          refine ⟨rfl, trivial, ?_⟩
          intro prev' hprev hne hreg
          simp only [Option.some.injEq] at hprev
          subst hprev
          have h₁ : (tokenRepository.SetRefreshToken false now
              (tokenRepository.DeleteRefreshToken false st.store u.UID prev).1 u.UID st.nextID
              cfg.RefreshExpirationSecs).1.registered u.UID prev := by
            simpa [tokenRepository.SetRefreshToken, tokenRepository.DeleteRefreshToken] using hreg
          rcases registered_set h₁ with hold | ⟨_, heq⟩
          · exact (registered_delete hold).2 ⟨rfl, rfl⟩
          · exact hne heq

lemma validate_ok {flt : StoreFaults} {now : Int} {st : ServiceState} {t : TokenString}
    {rt : RefreshToken}
    (h : tokenService.ValidateRefreshToken c cfg flt now st t = .ok rt) :
    t = .encoded rt (c.mac cfg.RefreshSecret rt) ∧ flt.lookup = false ∧
      st.store.registered rt.UID rt.ID := by
  cases t with
  | undecodable raw => simp [tokenService.ValidateRefreshToken] at h
  | encoded payload tag =>
    simp only [tokenService.ValidateRefreshToken] at h
    by_cases htag : tag = c.mac cfg.RefreshSecret payload
    · simp only [htag, ne_eq, not_true_eq_false, if_false] at h
      cases hex : tokenRepository.Exists flt.lookup now st.store payload.UID payload.ID with
      | error e => simp [hex] at h
      | ok b =>
        cases b with
        | false => simp [hex] at h
        | true =>
          simp only [hex, Except.ok.injEq] at h
          subst h
          exact ⟨by rw [htag], registered_of_exists hex⟩
    · simp [htag] at h

lemma validate_not_registered (flt : StoreFaults) (now : Int) {st : ServiceState}
    {p : RefreshToken} (tag : Nat) (hn : ¬ st.store.registered p.UID p.ID) :
    ∃ err, tokenService.ValidateRefreshToken c cfg flt now st (.encoded p tag) = .error err ∧
      (tag = c.mac cfg.RefreshSecret p →
        err = if flt.lookup then apperrors.NewInternal
          else apperrors.NewAuthorization "Unable to verify user from refresh token") := by
  simp only [tokenService.ValidateRefreshToken]
  by_cases htag : tag = c.mac cfg.RefreshSecret p
  · cases hl : flt.lookup with
    | true => simp [htag, tokenRepository.Exists]
    | false => simp [htag, exists_eq_false_of_not_registered hn]
  · simp [htag]

lemma refresh_evolves (flt : StoreFaults) (now : Int) (st : ServiceState) (t : TokenString) :
    st.Evolves (tokenService.Refresh c cfg flt now st t).1 := by
  simp only [tokenService.Refresh]
  cases tokenService.ValidateRefreshToken c cfg flt now st t with
  | error e => exact evolves_refl st
  | ok rt => exact newPair_evolves c cfg flt now st _ _

lemma signout_evolves (flt : StoreFaults) (st : ServiceState) (userID : Nat) :
    st.Evolves (tokenService.Signout flt st userID).1 := by
  cases hf : flt.deleteAll with
  | true =>
    simp only [tokenService.Signout, tokenRepository.DeleteUserRefreshTokens, hf, if_true]
    exact evolves_refl st
  | false =>
    simp only [tokenService.Signout, tokenRepository.DeleteUserRefreshTokens, hf,
      Bool.false_eq_true, if_false]
    exact ⟨le_refl _, fun a b h => Or.inl (registered_deleteAll (s := st.store) (u := userID)
      (by simpa [tokenRepository.DeleteUserRefreshTokens] using h)).1⟩

lemma signout_ok {flt : StoreFaults} {st st' : ServiceState} {userID : Nat}
    (h : tokenService.Signout flt st userID = (st', none)) :
    st'.nextID = st.nextID ∧ ∀ tokenID, ¬ st'.store.registered userID tokenID := by
  cases hf : flt.deleteAll with
  | true =>
    simp [tokenService.Signout, tokenRepository.DeleteUserRefreshTokens, hf] at h
  | false =>
    simp only [tokenService.Signout, tokenRepository.DeleteUserRefreshTokens, hf,
      Bool.false_eq_true, if_false, Prod.mk.injEq, and_true] at h
    subst h
    refine ⟨rfl, fun tokenID hreg => ?_⟩
    exact (registered_deleteAll (s := st.store) (u := userID)
      (by simpa [tokenRepository.DeleteUserRefreshTokens] using hreg)).2 rfl

lemma exec_evolves (st : ServiceState) (call : Call) : st.Evolves (call.exec c cfg st) := by
  cases call with
  | newPair flt now u previous => exact newPair_evolves c cfg flt now st u previous
  | refresh flt now token => exact refresh_evolves c cfg flt now st token
  | signout flt userID => exact signout_evolves flt st userID

lemma run_evolves (st : ServiceState) (calls : List Call) :
    st.Evolves (runCalls c cfg st calls) := by
  induction calls generalizing st with
  | nil => exact evolves_refl st
  | cons call rest ih =>
    exact evolves_trans (exec_evolves c cfg st call) (ih (call.exec c cfg st))

lemma minted_of_reachable {st : ServiceState} (h : Reachable c cfg st) : st.Minted := by
  obtain ⟨calls, rfl⟩ := h
  exact minted_of_evolves (fun e he => by simp [ServiceState.initial] at he)
    (run_evolves c cfg ServiceState.initial calls)

lemma newPair_journal {flt : StoreFaults} {now : Int} {st : ServiceState} {u : User}
    {previous : Option Nat} {pair : TokenPair}
    (h : (tokenService.NewPairFromUser c cfg flt now st u previous).2 = .ok pair) :
    (tokenService.NewPairFromUser c cfg flt now st u previous).1.store.journal =
      st.store.journal ++
        previous.toList.map (StoreOp.delete u.UID) ++
        [StoreOp.set u.UID st.nextID (now + cfg.RefreshExpirationSecs)] ∧
    (tokenService.NewPairFromUser c cfg flt now st u previous).1.store.registered u.UID
      st.nextID := by
  simp only [tokenService.NewPairFromUser] at h ⊢
  cases hs : c.sign cfg.PrivKey
      { Subject := u.UID, IssuedAt := now, ExpiresAt := now + cfg.IDExpirationSecs } with
  | none => simp [hs] at h
  | some idToken =>
    simp only [hs] at h ⊢
    cases hset : flt.set with
    | true =>
      exfalso
      cases previous with
      | none => simp [tokenRepository.SetRefreshToken, hset] at h
      | some prev =>
        cases hd : flt.delete <;>
          simp [tokenRepository.SetRefreshToken, tokenRepository.DeleteRefreshToken, hset, hd] at h
    | false =>
      cases previous with
      | none =>
        simp [tokenRepository.SetRefreshToken, hset, SessionStore.registered]
      | some prev =>
        cases hd : flt.delete with
        | true =>
          simp [tokenRepository.DeleteRefreshToken, hd] at h
        | false =>
          simp [tokenRepository.SetRefreshToken, tokenRepository.DeleteRefreshToken, hset, hd,
            SessionStore.registered]

lemma signout_journal {flt : StoreFaults} {st st' : ServiceState} {userID : Nat}
    (h : tokenService.Signout flt st userID = (st', none)) :
    st'.store.journal = st.store.journal ++ [StoreOp.deleteAll userID] := by
  cases hf : flt.deleteAll with
  | true =>
    simp [tokenService.Signout, tokenRepository.DeleteUserRefreshTokens, hf] at h
  | false =>
    simp only [tokenService.Signout, tokenRepository.DeleteUserRefreshTokens, hf,
      Bool.false_eq_true, if_false, Prod.mk.injEq, and_true] at h
    subst h
    rfl

end TokenService

/-- C7: from every reachable state, once `Refresh(rt)` has succeeded, every
later `Refresh(rt)`, after any further calls, fails and changes nothing, with
an Authorization error whenever the store answers its lookup.  The cause is
the order of the rotation: in the successful call the store first deleted
rt's identifier and then inserted the replacement, so that rt's identifier is
not registered any more while the new one is.  No refresh identifier is
redeemed twice.  (Calls are taken one after the other, a later call starting
after the earlier one returned.) -/
theorem refresh_no_double_redemption (c : Crypto) (cfg : TSConfig) (s : ServiceState)
    (hs : Reachable c cfg s) (flt : StoreFaults) (now : Int) (rt : TokenString)
    (s₁ : ServiceState) (pair : TokenPair)
    (h : tokenService.Refresh c cfg flt now s rt = (s₁, .ok pair)) :
    (∃ old, rt = .encoded old (c.mac cfg.RefreshSecret old) ∧
      s₁.store.journal = s.store.journal ++
        [StoreOp.delete old.UID old.ID,
         StoreOp.set old.UID s.nextID (now + cfg.RefreshExpirationSecs)] ∧
      old.ID ≠ s.nextID ∧
      ¬ s₁.store.registered old.UID old.ID ∧
      s₁.store.registered old.UID s.nextID) ∧
    ∀ (calls : List Call) (flt' : StoreFaults) (now' : Int),
      (tokenService.Refresh c cfg flt' now' (runCalls c cfg s₁ calls) rt).1 =
        runCalls c cfg s₁ calls ∧
      (∀ p, (tokenService.Refresh c cfg flt' now' (runCalls c cfg s₁ calls) rt).2 ≠ .ok p) ∧
      (flt'.lookup = false →
        (tokenService.Refresh c cfg flt' now' (runCalls c cfg s₁ calls) rt).2 =
          .error (apperrors.NewAuthorization "Unable to verify user from refresh token") ∧
        ∃ err, (tokenService.Refresh c cfg flt' now' (runCalls c cfg s₁ calls) rt).2 =
          .error err ∧ err.Kind = .Authorization) := by
  have hstate : s₁ = (tokenService.Refresh c cfg flt now s rt).1 := by rw [h]
  have hres : (tokenService.Refresh c cfg flt now s rt).2 = .ok pair := by rw [h]
  simp only [tokenService.Refresh] at hstate hres
  cases hv : tokenService.ValidateRefreshToken c cfg flt now s rt with
  | error e => simp [hv] at hres
  | ok old =>
    simp only [hv] at hstate hres
    obtain ⟨hrt, _, hreg⟩ := validate_ok c cfg hv
    obtain ⟨e, he, hu, hid⟩ := hreg
    have hlt : old.ID < s.nextID := hid ▸ minted_of_reachable c cfg hs e he
    obtain ⟨_, hnext, hgone⟩ := newPair_ok c cfg hres
    obtain ⟨hjournal, hnew⟩ := newPair_journal c cfg hres
    have hgone₁ : ¬ s₁.store.registered old.UID old.ID := by
      rw [hstate]
      exact hgone old.ID rfl (Nat.ne_of_lt hlt)
    have hlt₁ : old.ID < s₁.nextID := by
      rw [hstate, hnext]
      exact Nat.lt_succ_of_lt hlt
    refine ⟨⟨old, hrt, ?_, Nat.ne_of_lt hlt, hgone₁, ?_⟩, ?_⟩
    · rw [hstate, hjournal]
      simp
    · rw [hstate]
      exact hnew
    intro calls flt' now'
    have hgone₂ : ¬ (runCalls c cfg s₁ calls).store.registered old.UID old.ID :=
      not_registered_of_evolves (run_evolves c cfg s₁ calls) hlt₁ hgone₁
    obtain ⟨err, herr, hkind⟩ := validate_not_registered c cfg flt' now'
      (c.mac cfg.RefreshSecret old) hgone₂
    have hfinal : tokenService.Refresh c cfg flt' now' (runCalls c cfg s₁ calls) rt =
        (runCalls c cfg s₁ calls, .error err) := by
      simp only [tokenService.Refresh, hrt, herr]
    refine ⟨?_, ?_, ?_⟩
    · rw [hfinal]
    · intro p hp
      rw [hfinal] at hp
      cases hp
    intro hup
    have herr' : err = apperrors.NewAuthorization "Unable to verify user from refresh token" := by
      rw [hkind rfl, hup]
      rfl
    rw [hfinal, herr']
    exact ⟨rfl, _, rfl, rfl⟩

/-- Witness for C7: alice logs in and redeems her refresh token; the store
deleted identifier 0 before it inserted identifier 1, and the redeemed token
is refused when it is presented again. -/
theorem refresh_no_double_redemption_witness :
    afterRefresh.store.journal =
      [StoreOp.set 42 0 4600, StoreOp.delete 42 0, StoreOp.set 42 1 4610] ∧
    tokenService.Refresh toyCrypto devConfig StoreFaults.healthy 1020 afterRefresh firstToken =
      (afterRefresh,
        .error (apperrors.NewAuthorization "Unable to verify user from refresh token")) := by
  have T := refresh_no_double_redemption toyCrypto devConfig afterLogin ⟨[aliceLoginCall], rfl⟩
    StoreFaults.healthy 1010 firstToken afterRefresh secondPair (by decide)
  obtain ⟨⟨old, hrt, hjournal, _⟩, hlater⟩ := T
  obtain ⟨hstate, _, hauth⟩ := hlater [] StoreFaults.healthy 1020
  refine ⟨?_, Prod.ext hstate (hauth rfl).1⟩
  injection hrt with hold _
  subst hold
  exact hjournal.trans (by decide)

/-- C8: when `Signout(U)` succeeds the store deletes the whole collection of
U, so that no identifier is registered for U any more, and from then on
`ValidateRefreshToken` fails on every refresh token that was issued to U
before the sign-out, by `NewPairFromUser` or by `Refresh`, whatever calls came
in between and come afterwards. -/
theorem signout_revokes_issued_tokens (c : Crypto) (cfg : TSConfig) (s : ServiceState)
    (issue : Call) (U : Nat) (pair : TokenPair)
    (hrecipient : issue.recipient = some U)
    (hissued : issue.issued c cfg s = some pair)
    (between : List Call) (flt : StoreFaults) (st' : ServiceState)
    (hsignout : tokenService.Signout flt (runCalls c cfg (issue.exec c cfg s) between) U =
      (st', none)) :
    (st'.store.journal =
        (runCalls c cfg (issue.exec c cfg s) between).store.journal ++ [StoreOp.deleteAll U] ∧
      ∀ tokenID, ¬ st'.store.registered U tokenID) ∧
    ∀ (later : List Call) (flt' : StoreFaults) (now' : Int),
      tokenService.ValidateRefreshToken c cfg flt' now' (runCalls c cfg st' later)
        pair.refreshToken =
          .error (if flt'.lookup then apperrors.NewInternal
            else apperrors.NewAuthorization "Unable to verify user from refresh token") := by
  have key : ∃ p, pair.refreshToken = .encoded p (c.mac cfg.RefreshSecret p) ∧ p.UID = U ∧
      p.ID = s.nextID ∧ (issue.exec c cfg s).nextID = s.nextID + 1 := by
    cases issue with
    | signout f u => simp [Call.issued] at hissued
    | newPair f t u previous =>
      simp only [Call.recipient, Option.some.injEq] at hrecipient
      simp only [Call.issued] at hissued
      cases hr : (tokenService.NewPairFromUser c cfg f t s u previous).2 with
      | error e => simp [hr] at hissued
      | ok p =>
        simp only [hr, Option.some.injEq] at hissued
        subst hissued
        obtain ⟨htok, hnext, _⟩ := newPair_ok c cfg hr
        exact ⟨_, htok, hrecipient, rfl, hnext⟩
    | refresh f t token =>
      simp only [Call.issued] at hissued
      cases hr : (tokenService.Refresh c cfg f t s token).2 with
      | error e => simp [hr] at hissued
      | ok p =>
        simp only [hr, Option.some.injEq] at hissued
        subst hissued
        simp only [tokenService.Refresh] at hr
        cases hv : tokenService.ValidateRefreshToken c cfg f t s token with
        | error e => simp [hv] at hr
        | ok old =>
          simp only [hv] at hr
          obtain ⟨htoken, _, _⟩ := validate_ok c cfg hv
          subst htoken
          simp only [Call.recipient, Option.some.injEq] at hrecipient
          obtain ⟨htok, hnext, _⟩ := newPair_ok c cfg hr
          refine ⟨_, htok, hrecipient, rfl, ?_⟩
          simp only [Call.exec, tokenService.Refresh, hv]
          exact hnext
  obtain ⟨p, htok, hu, hid, hnext⟩ := key
  obtain ⟨hsame, hnone⟩ := signout_ok hsignout
  refine ⟨⟨signout_journal hsignout, hnone⟩, ?_⟩
  intro later flt' now'
  have hmono := (run_evolves c cfg (issue.exec c cfg s) between).1
  have hlt : p.ID < st'.nextID := by omega
  have hgone : ¬ (runCalls c cfg st' later).store.registered p.UID p.ID :=
    not_registered_of_evolves (run_evolves c cfg st' later) hlt (hu ▸ hnone p.ID)
  obtain ⟨err, herr, hkind⟩ := validate_not_registered c cfg flt' now'
    (c.mac cfg.RefreshSecret p) hgone
  rw [htok, herr, hkind rfl]

/-- Witness for C8: alice logs in and redeems her token, which leaves her
with one live refresh token; it validates until she signs out and is refused
afterwards, the store having deleted her collection. -/
theorem signout_revokes_issued_tokens_witness :
    tokenService.ValidateRefreshToken toyCrypto devConfig StoreFaults.healthy 1020 afterRefresh
      secondPair.refreshToken = .ok { ID := 1, UID := 42, ExpiresAt := 4610 } ∧
    afterSignout.store.journal =
      [StoreOp.set 42 0 4600, StoreOp.delete 42 0, StoreOp.set 42 1 4610,
       StoreOp.deleteAll 42] ∧
    tokenService.ValidateRefreshToken toyCrypto devConfig StoreFaults.healthy 1030 afterSignout
      secondPair.refreshToken =
        .error (apperrors.NewAuthorization "Unable to verify user from refresh token") := by
  have T := signout_revokes_issued_tokens toyCrypto devConfig afterLogin
    (.refresh StoreFaults.healthy 1010 firstToken) 42 secondPair (by decide) (by decide) []
    StoreFaults.healthy afterSignout (by decide)
  exact ⟨by decide, T.1.1.trans (by decide), T.2 [] StoreFaults.healthy 1030⟩

/-- Witness for C5, amended: setting the secret changes nothing in what
`inject` returns. -/
theorem inject_ignores_refresh_secret_witness :
    (inject (noSecretWorld.setenv "REFRESH_SECRET" "topsecret") helper.LogState.initial
        someSources).err =
      (inject noSecretWorld helper.LogState.initial someSources).err :=
  (inject_ignores_refresh_secret noSecretWorld helper.LogState.initial someSources
    "topsecret").1

/-- Rotation fails closed: when a redemption gets as far as deleting the old
identifier and the insertion of the new one fails, the call reports an
Internal error and the old identifier is gone. -/
lemma refresh_fails_closed (c : Crypto) (cfg : TSConfig) (flt : StoreFaults) (now : Int)
    (st : ServiceState) (rt : RefreshToken) (tag : Nat) (idToken : String)
    (hv : tokenService.ValidateRefreshToken c cfg flt now st (.encoded rt tag) = .ok rt)
    (hsign : c.sign cfg.PrivKey
      { Subject := rt.UID, IssuedAt := now, ExpiresAt := now + cfg.IDExpirationSecs } =
        some idToken)
    (hdelete : flt.delete = false) (hset : flt.set = true) :
    (tokenService.Refresh c cfg flt now st (.encoded rt tag)).2 = .error apperrors.NewInternal ∧
    ¬ (tokenService.Refresh c cfg flt now st (.encoded rt tag)).1.store.registered rt.UID rt.ID := by
  simp only [tokenService.Refresh, hv, tokenService.NewPairFromUser, hsign,
    tokenRepository.DeleteRefreshToken, hdelete, tokenRepository.SetRefreshToken, hset,
    Bool.false_eq_true, if_false, if_true, true_and]
  intro hreg
  exact (registered_delete (s := st.store) (u := rt.UID) (t := rt.ID)
    (by simpa [tokenRepository.DeleteRefreshToken] using hreg)).2 ⟨rfl, rfl⟩

/-- The scenario of section 8 on the model: the pair issued by a redemption
validates, the redeemed token does not, a token stops validating once its
expiry instant is past, and a lookup the store does not answer is reported as
Internal (section 4.2). -/
lemma token_service_scenario :
    (tokenService.Refresh toyCrypto devConfig lookupDown 1020 afterRefresh firstToken).2 =
      .error apperrors.NewInternal ∧
    tokenService.Refresh toyCrypto devConfig StoreFaults.healthy 1010 afterLogin firstToken =
      (afterRefresh, .ok secondPair) ∧
    tokenService.ValidateRefreshToken toyCrypto devConfig StoreFaults.healthy 1020 afterRefresh
      secondPair.refreshToken = .ok { ID := 1, UID := 42, ExpiresAt := 4610 } ∧
    tokenService.ValidateRefreshToken toyCrypto devConfig StoreFaults.healthy 4611 afterRefresh
      secondPair.refreshToken =
        .error (apperrors.NewAuthorization "Unable to verify user from refresh token") ∧
    tokenService.ValidateRefreshToken toyCrypto devConfig StoreFaults.healthy 1020 afterRefresh
      firstToken =
        .error (apperrors.NewAuthorization "Unable to verify user from refresh token") := by
  decide
